import Mathlib

/-!
Verification of the Bookmark Manager browser-extension bridge
(`src/browser_extension/background.js` and the popup script).

The bridge is modelled as pure Lean functions over an abstract native
bookmark store.  The store (`chrome.bookmarks`) is an external collaborator:
we model it as a `StoreModel σ`, a pair of state-passing primitives
`remove` (for `chrome.bookmarks.remove`) and `search`
(for `chrome.bookmarks.search({url})`), each of which may either succeed or
fault with an error message (`error.message` in the JS `catch`).
All definitions of the bridge itself are transliterated from the source,
with `await` sequencing rendered as explicit state threading: each store
call consumes the state produced by the previous call, so calls are issued
strictly one at a time, in program order.
-/

namespace BookmarkBridge

/-- A bookmark node as returned by `chrome.bookmarks.search`.  The source
only reads `id`, `title`, `url` and `parentId`; real nodes carry further
fields (e.g. a date), kept here so that the projection performed by the
source is not a no-op. -/
structure RawBookmark where
  id : String
  title : String
  url : String
  parentId : String
  dateAdded : Nat
deriving DecidableEq

/-- The four-field record built by `findBookmarksByUrl`:
`{id: b.id, title: b.title, url: b.url, parentId: b.parentId}`. -/
structure Match where
  id : String
  title : String
  url : String
  parentId : String
deriving DecidableEq

/-- The projection `b => ({id, title, url, parentId})` from background.js. -/
def RawBookmark.toMatch (b : RawBookmark) : Match :=
  { id := b.id, title := b.title, url := b.url, parentId := b.parentId }

/-- The native bookmark store, an external collaborator.  `σ` is its
(abstract) state.  `remove id` models `chrome.bookmarks.remove(id)`:
it either resolves (`Except.ok`) or rejects with an error message
(`Except.error`).  `search url` models `chrome.bookmarks.search({url})`,
resolving with a list of bookmark nodes or rejecting. -/
structure StoreModel (σ : Type) where
  remove : σ → String → σ × Except String Unit
  search : σ → String → σ × Except String (List RawBookmark)

/-- A bookmark id in a request payload: background.js accepts numbers and
strings (`// Convert to string if needed`). -/
inductive BookmarkId where
  | str (s : String)
  | num (n : Int)
deriving DecidableEq

/-- The JS coercion `String(id)` applied to a payload item. -/
def BookmarkId.toStr : BookmarkId → String
  | .str s => s
  | .num n => toString n

/-- One entry of the `deleteBookmarks` result list:
`{id, success: true}` or `{id, success: false, error}`. -/
structure DeleteResult where
  id : String
  success : Bool
  error : Option String
deriving DecidableEq

/-- One entry of the `findBookmarksByUrl` result list:
`{url, bookmarks}` on success, `{url, error, bookmarks: []}` on fault. -/
structure FindResult where
  url : String
  bookmarks : List Match
  error : Option String
deriving DecidableEq

variable {σ : Type}

/-- The loop body of `deleteBookmarks` in background.js:
`const results = []; for (const id of bookmarkIds) { try { await
chrome.bookmarks.remove(String(id)); results.push({id, success: true}) }
catch (e) { results.push({id, success: false, error: e.message}) } }`.
The accumulator is the `results` array; the store state is threaded through
each awaited call. -/
def deleteBookmarksGo (M : StoreModel σ) :
    List BookmarkId → σ → List DeleteResult → σ × List DeleteResult
  | [], s, results => (s, results)
  | bid :: rest, s, results =>
    let idStr := bid.toStr
    match M.remove s idStr with
    | (s', Except.ok _) =>
        deleteBookmarksGo M rest s'
          (results ++ [{ id := idStr, success := true, error := none }])
    | (s', Except.error e) =>
        deleteBookmarksGo M rest s'
          (results ++ [{ id := idStr, success := false, error := some e }])

/-- `deleteBookmarks(bookmarkIds)` from background.js: sequential per-id
removal with per-item failure isolation, returning the final store state
and the `results` array. -/
def deleteBookmarks (M : StoreModel σ) (s : σ) (bookmarkIds : List BookmarkId) :
    σ × List DeleteResult :=
  deleteBookmarksGo M bookmarkIds s []

/-- The loop body of `findBookmarksByUrl` in background.js: for each url,
`await chrome.bookmarks.search({url})`, push `{url, bookmarks: mapped}` on
success and `{url, error: e.message, bookmarks: []}` on fault. -/
def findBookmarksByUrlGo (M : StoreModel σ) :
    List String → σ → List FindResult → σ × List FindResult
  | [], s, results => (s, results)
  | url :: rest, s, results =>
    match M.search s url with
    | (s', Except.ok bs) =>
        findBookmarksByUrlGo M rest s'
          (results ++ [{ url := url, bookmarks := bs.map RawBookmark.toMatch,
                         error := none }])
    | (s', Except.error e) =>
        findBookmarksByUrlGo M rest s'
          (results ++ [{ url := url, bookmarks := [], error := some e }])

/-- `findBookmarksByUrl(urls)` from background.js. -/
def findBookmarksByUrl (M : StoreModel σ) (s : σ) (urls : List String) :
    σ × List FindResult :=
  findBookmarksByUrlGo M urls s []

/-- The `results` accumulator only ever grows by appending: running the
delete loop with accumulator `acc` yields `acc ++` the results of running
it with an empty accumulator, with the same final store state. -/
theorem deleteBookmarksGo_acc (M : StoreModel σ) :
    ∀ (ids : List BookmarkId) (s : σ) (acc : List DeleteResult),
      deleteBookmarksGo M ids s acc =
        ((deleteBookmarksGo M ids s []).1, acc ++ (deleteBookmarksGo M ids s []).2) := by
  intro ids
  induction ids with
  | nil => intro s acc; simp [deleteBookmarksGo]
  | cons bid rest ih =>
    intro s acc
    rcases h : M.remove s bid.toStr with ⟨s', r⟩
    cases r with
    | ok u =>
      simp only [deleteBookmarksGo, h, List.nil_append]
      rw [ih s' (acc ++ [DeleteResult.mk bid.toStr true none]),
          ih s' [DeleteResult.mk bid.toStr true none]]
      simp
    | error e =>
      simp only [deleteBookmarksGo, h, List.nil_append]
      rw [ih s' (acc ++ [DeleteResult.mk bid.toStr false (some e)]),
          ih s' [DeleteResult.mk bid.toStr false (some e)]]
      simp

/-- Accumulator lemma for the lookup loop, mirror of
`deleteBookmarksGo_acc`. -/
theorem findBookmarksByUrlGo_acc (M : StoreModel σ) :
    ∀ (urls : List String) (s : σ) (acc : List FindResult),
      findBookmarksByUrlGo M urls s acc =
        ((findBookmarksByUrlGo M urls s []).1, acc ++ (findBookmarksByUrlGo M urls s []).2) := by
  intro urls
  induction urls with
  | nil => intro s acc; simp [findBookmarksByUrlGo]
  | cons url rest ih =>
    intro s acc
    rcases h : M.search s url with ⟨s', r⟩
    cases r with
    | ok bs =>
      simp only [findBookmarksByUrlGo, h, List.nil_append]
      rw [ih s' (acc ++ [FindResult.mk url (bs.map RawBookmark.toMatch) none]),
          ih s' [FindResult.mk url (bs.map RawBookmark.toMatch) none]]
      simp
    | error e =>
      simp only [findBookmarksByUrlGo, h, List.nil_append]
      rw [ih s' (acc ++ [FindResult.mk url [] (some e)]),
          ih s' [FindResult.mk url [] (some e)]]
      simp

/-- Unfolding equation for `deleteBookmarks` on a non-empty list. -/
theorem deleteBookmarks_cons (M : StoreModel σ) (s : σ) (bid : BookmarkId)
    (rest : List BookmarkId) :
    deleteBookmarks M s (bid :: rest) =
      match M.remove s bid.toStr with
      | (s', Except.ok _) =>
          ((deleteBookmarks M s' rest).1,
           { id := bid.toStr, success := true, error := none } ::
             (deleteBookmarks M s' rest).2)
      | (s', Except.error e) =>
          ((deleteBookmarks M s' rest).1,
           { id := bid.toStr, success := false, error := some e } ::
             (deleteBookmarks M s' rest).2) := by
  rcases h : M.remove s bid.toStr with ⟨s', r⟩
  cases r with
  | ok u =>
    simp only [deleteBookmarks, deleteBookmarksGo, h, List.nil_append]
    rw [deleteBookmarksGo_acc M rest s' [DeleteResult.mk bid.toStr true none]]
    simp
  | error e =>
    simp only [deleteBookmarks, deleteBookmarksGo, h, List.nil_append]
    rw [deleteBookmarksGo_acc M rest s' [DeleteResult.mk bid.toStr false (some e)]]
    simp

/-- Unfolding equation for `findBookmarksByUrl` on a non-empty list. -/
theorem findBookmarksByUrl_cons (M : StoreModel σ) (s : σ) (url : String)
    (rest : List String) :
    findBookmarksByUrl M s (url :: rest) =
      match M.search s url with
      | (s', Except.ok bs) =>
          ((findBookmarksByUrl M s' rest).1,
           { url := url, bookmarks := bs.map RawBookmark.toMatch, error := none } ::
             (findBookmarksByUrl M s' rest).2)
      | (s', Except.error e) =>
          ((findBookmarksByUrl M s' rest).1,
           { url := url, bookmarks := [], error := some e } ::
             (findBookmarksByUrl M s' rest).2) := by
  rcases h : M.search s url with ⟨s', r⟩
  cases r with
  | ok bs =>
    simp only [findBookmarksByUrl, findBookmarksByUrlGo, h, List.nil_append]
    rw [findBookmarksByUrlGo_acc M rest s'
          [FindResult.mk url (bs.map RawBookmark.toMatch) none]]
    simp
  | error e =>
    simp only [findBookmarksByUrl, findBookmarksByUrlGo, h, List.nil_append]
    rw [findBookmarksByUrlGo_acc M rest s' [FindResult.mk url [] (some e)]]
    simp

/-- The delete results carry exactly the stringified input ids, in input
order (hence also one result entry per input item). -/
theorem deleteBookmarks_map_id (M : StoreModel σ) :
    ∀ (ids : List BookmarkId) (s : σ),
      (deleteBookmarks M s ids).2.map DeleteResult.id = ids.map BookmarkId.toStr := by
  intro ids
  induction ids with
  | nil => intro s; simp [deleteBookmarks, deleteBookmarksGo]
  | cons bid rest ih =>
    intro s
    rw [deleteBookmarks_cons]
    rcases h : M.remove s bid.toStr with ⟨s', r⟩
    cases r with
    | ok u => simpa using ih s'
    | error e => simpa using ih s'

/-- The lookup results carry exactly the input urls, in input order. -/
theorem findBookmarksByUrl_map_url (M : StoreModel σ) :
    ∀ (urls : List String) (s : σ),
      (findBookmarksByUrl M s urls).2.map FindResult.url = urls := by
  intro urls
  induction urls with
  | nil => intro s; simp [findBookmarksByUrl, findBookmarksByUrlGo]
  | cons url rest ih =>
    intro s
    rw [findBookmarksByUrl_cons]
    rcases h : M.search s url with ⟨s', r⟩
    cases r with
    | ok bs => simpa using ih s'
    | error e => simpa using ih s'

/-- C1: For every request handled by the Batch Mutator (`deleteBookmarks`)
or the Lookup Resolver (`findBookmarksByUrl`) whose payload is a list of N
items, the returned results list has exactly N entries, and for every index
i, results[i] is the entry for input[i] — carrying that item's stringified
id, respectively its url — regardless of which individual store calls fail
(the store model `M`, its state `s`, and hence the success or failure of
every individual call, are universally quantified). -/
theorem batch_results_align (M : StoreModel σ) (s : σ)
    (ids : List BookmarkId) (urls : List String) :
    (deleteBookmarks M s ids).2.length = ids.length ∧
    (deleteBookmarks M s ids).2.map DeleteResult.id = ids.map BookmarkId.toStr ∧
    (findBookmarksByUrl M s urls).2.length = urls.length ∧
    (findBookmarksByUrl M s urls).2.map FindResult.url = urls := by
  refine ⟨?_, deleteBookmarks_map_id M ids s, ?_, findBookmarksByUrl_map_url M urls s⟩
  · have h := congrArg List.length (deleteBookmarks_map_id M ids s)
    simpa using h
  · have h := congrArg List.length (findBookmarksByUrl_map_url M urls s)
    simpa using h

/-- Concatenation law for the Batch Mutator: processing `xs ++ ys` is
processing `xs`, then processing `ys` from the store state `xs` left behind,
with the result lists concatenated. -/
theorem deleteBookmarks_append (M : StoreModel σ) :
    ∀ (xs ys : List BookmarkId) (s : σ),
      deleteBookmarks M s (xs ++ ys) =
        ((deleteBookmarks M (deleteBookmarks M s xs).1 ys).1,
         (deleteBookmarks M s xs).2 ++ (deleteBookmarks M (deleteBookmarks M s xs).1 ys).2) := by
  intro xs
  induction xs with
  | nil => intro ys s; simp [deleteBookmarks, deleteBookmarksGo]
  | cons x rest ih =>
    intro ys s
    rcases h : M.remove s x.toStr with ⟨s', r⟩
    cases r with
    | ok u =>
      simp only [List.cons_append, deleteBookmarks_cons, h]
      rw [ih ys s']
    | error e =>
      simp only [List.cons_append, deleteBookmarks_cons, h]
      rw [ih ys s']

/-- Concatenation law for the Lookup Resolver, mirror of
`deleteBookmarks_append`. -/
theorem findBookmarksByUrl_append (M : StoreModel σ) :
    ∀ (xs ys : List String) (s : σ),
      findBookmarksByUrl M s (xs ++ ys) =
        ((findBookmarksByUrl M (findBookmarksByUrl M s xs).1 ys).1,
         (findBookmarksByUrl M s xs).2 ++
           (findBookmarksByUrl M (findBookmarksByUrl M s xs).1 ys).2) := by
  intro xs
  induction xs with
  | nil => intro ys s; simp [findBookmarksByUrl, findBookmarksByUrlGo]
  | cons x rest ih =>
    intro ys s
    rcases h : M.search s x with ⟨s', r⟩
    cases r with
    | ok bs =>
      simp only [List.cons_append, findBookmarksByUrl_cons, h]
      rw [ih ys s']
    | error e =>
      simp only [List.cons_append, findBookmarksByUrl_cons, h]
      rw [ih ys s']

/-- C2: For every input list to `deleteBookmarks` or `findBookmarksByUrl`,
if the store call for the item at position i (here the item after the
prefix `pre`, so i = pre.length) faults, the handler appends the failure
entry for that item — delete records an entry with `success := false` and the
message, lookup records the message and an empty bookmark list — and still
attempts every later item: the tail of the result list is exactly the full
processing of `rest`, every one of whose items gets its own store call and
entry.  One faulting item never aborts or skips subsequent items. -/
theorem batch_failure_isolation (M : StoreModel σ) (s : σ) :
    (∀ (pre rest : List BookmarkId) (bid : BookmarkId) (s' : σ) (e : String),
      M.remove (deleteBookmarks M s pre).1 bid.toStr = (s', Except.error e) →
      (deleteBookmarks M s (pre ++ bid :: rest)).2 =
        (deleteBookmarks M s pre).2 ++
          DeleteResult.mk bid.toStr false (some e) :: (deleteBookmarks M s' rest).2) ∧
    (∀ (pre rest : List String) (url : String) (s' : σ) (e : String),
      M.search (findBookmarksByUrl M s pre).1 url = (s', Except.error e) →
      (findBookmarksByUrl M s (pre ++ url :: rest)).2 =
        (findBookmarksByUrl M s pre).2 ++
          FindResult.mk url [] (some e) :: (findBookmarksByUrl M s' rest).2) := by
  constructor
  · intro pre rest bid s' e h
    rw [deleteBookmarks_append]
    rw [deleteBookmarks_cons]
    simp [h]
  · intro pre rest url s' e h
    rw [findBookmarksByUrl_append]
    rw [findBookmarksByUrl_cons]
    simp [h]

/-! ## The Message Router

`chrome.runtime.onMessageExternal` (one-shot channel) and
`chrome.runtime.onConnectExternal` (persistent channel) from background.js.
A request payload field may be a proper array, or it may be absent /
non-iterable: in the latter case the `for...of` inside the async handler
throws a TypeError before any store call, the returned promise rejects with
that message, and the `.catch` (resp. the `catch` block around `await`)
sends `{success: false, error}`. -/

/-- A payload field of the inbound request envelope: either a well-formed
list, or a value the JS `for...of` cannot iterate (including an absent
field, i.e. `undefined`); `errMsg` is the message of the TypeError such an
iteration attempt throws. -/
inductive Payload (α : Type) where
  | list (items : List α)
  | notIterable (errMsg : String)
deriving DecidableEq

/-- The inbound request envelope
`{action, bookmarkIds?, urls?}` from background.js. -/
structure Request where
  action : String
  bookmarkIds : Payload BookmarkId
  urls : Payload String
deriving DecidableEq

/-- An outbound response envelope, one constructor per shape the source
sends: `{success: true, results}` for delete, `{success: true, results}`
for lookup, `{success: true, message}` for ping, `{success: false, error}`
for a handler fault. -/
inductive Response where
  | deleteOk (results : List DeleteResult)
  | findOk (results : List FindResult)
  | pingOk (message : String)
  | failure (error : String)
deriving DecidableEq

/-- Calling the async `deleteBookmarks(request.bookmarkIds)`: a well-formed
list runs the loop and resolves with its results; a non-iterable payload
makes the `for...of` throw before any store call, rejecting with the
TypeError message and leaving the store untouched. -/
def deleteBookmarksReq (M : StoreModel σ) (s : σ) :
    Payload BookmarkId → σ × Except String (List DeleteResult)
  | .list ids => ((deleteBookmarks M s ids).1, Except.ok (deleteBookmarks M s ids).2)
  | .notIterable e => (s, Except.error e)

/-- Calling the async `findBookmarksByUrl(request.urls)`, same convention
as `deleteBookmarksReq`. -/
def findBookmarksByUrlReq (M : StoreModel σ) (s : σ) :
    Payload String → σ × Except String (List FindResult)
  | .list urls => ((findBookmarksByUrl M s urls).1, Except.ok (findBookmarksByUrl M s urls).2)
  | .notIterable e => (s, Except.error e)

/-- The one-shot channel handler (`chrome.runtime.onMessageExternal`):
dispatch on `request.action`; `deleteBookmarks` and `findBookmarksByUrl`
send `{success: true, results}` via `.then` or `{success: false, error}`
via `.catch`; `ping` synchronously sends
`{success: true, message: "Extension is active"}`; any other tag falls off
the end of the listener without calling `sendResponse` — no response
(`none`) and no store interaction. -/
def handleMessage (M : StoreModel σ) (s : σ) (request : Request) : σ × Option Response :=
  if request.action = "deleteBookmarks" then
    match deleteBookmarksReq M s request.bookmarkIds with
    | (s', Except.ok results) => (s', some (Response.deleteOk results))
    | (s', Except.error e) => (s', some (Response.failure e))
  else if request.action = "ping" then
    (s, some (Response.pingOk "Extension is active"))
  else if request.action = "findBookmarksByUrl" then
    match findBookmarksByUrlReq M s request.urls with
    | (s', Except.ok results) => (s', some (Response.findOk results))
    | (s', Except.error e) => (s', some (Response.failure e))
  else (s, none)

/-- The persistent channel handler (the `port.onMessage` listener installed
by `chrome.runtime.onConnectExternal`): it only dispatches
`deleteBookmarks` — posting `{success: true, results}` or
`{success: false, error}` back on the port — and ignores every other
action tag, `ping` and `findBookmarksByUrl` included. -/
def handlePort (M : StoreModel σ) (s : σ) (message : Request) : σ × Option Response :=
  if message.action = "deleteBookmarks" then
    match deleteBookmarksReq M s message.bookmarkIds with
    | (s', Except.ok results) => (s', some (Response.deleteOk results))
    | (s', Except.error e) => (s', some (Response.failure e))
  else (s, none)

/-- A concrete store over trivial state whose calls always succeed,
used to exercise the theorems on explicit inputs. -/
def okStore : StoreModel Unit where
  remove := fun _ _ => ((), Except.ok ())
  search := fun _ _ => ((), Except.ok [])

/-- A concrete store over trivial state that faults on the id "bad" and on
the url "badurl" and succeeds elsewhere, used to exercise the failure
paths on explicit inputs. -/
def failStore : StoreModel Unit where
  remove := fun _ idStr =>
    ((), if idStr = "bad" then Except.error "Cannot find bookmark for id." else Except.ok ())
  search := fun _ url =>
    ((), if url = "badurl" then Except.error "query failed" else Except.ok [])

/-- Witness for C2 at explicit inputs: under `failStore`, a batch
a, bad, c faults exactly on the middle id, records the failure entry there,
and still processes c (and symmetrically for a lookup a, badurl, c). -/
theorem batch_failure_isolation_witness :
    (failStore.remove
        (deleteBookmarks failStore () [BookmarkId.str "a"]).1 (BookmarkId.str "bad").toStr =
      ((), Except.error "Cannot find bookmark for id.")) ∧
    (deleteBookmarks failStore ()
        ([BookmarkId.str "a"] ++ BookmarkId.str "bad" :: [BookmarkId.str "c"])).2 =
      [DeleteResult.mk "a" true none, DeleteResult.mk "bad" false (some "Cannot find bookmark for id."),
       DeleteResult.mk "c" true none] ∧
    (findBookmarksByUrl failStore () (["a"] ++ "badurl" :: ["c"])).2 =
      [FindResult.mk "a" [] none, FindResult.mk "badurl" [] (some "query failed"),
       FindResult.mk "c" [] none] := by
  refine ⟨by rfl, ?_, ?_⟩
  · rw [(batch_failure_isolation failStore ()).1 [BookmarkId.str "a"] [BookmarkId.str "c"]
        (BookmarkId.str "bad") () "Cannot find bookmark for id." (by rfl)]
    decide
  · rw [(batch_failure_isolation failStore ()).2 ["a"] ["c"]
        "badurl" () "query failed" (by rfl)]
    decide

/-- C3: For every `deleteBookmarks` request whose `bookmarkIds` payload is
a well-formed list, the one-shot handler responds with the
`{success: true, results}` envelope — even when some or all per-item
removals fail, since `ids` and the store model `M` are arbitrary — and the
envelope is `{success: false, error}` if and only if the payload is a
structural fault (non-iterable), which makes the batch handler itself
throw. -/
theorem delete_envelope (M : StoreModel σ) (s : σ) (request : Request)
    (h : request.action = "deleteBookmarks") :
    (∀ ids, request.bookmarkIds = Payload.list ids →
      (handleMessage M s request).2 = some (Response.deleteOk (deleteBookmarks M s ids).2)) ∧
    (∀ e, request.bookmarkIds = Payload.notIterable e →
      (handleMessage M s request).2 = some (Response.failure e)) ∧
    ((∃ e, (handleMessage M s request).2 = some (Response.failure e)) ↔
      (∃ e, request.bookmarkIds = Payload.notIterable e)) := by
  refine ⟨?_, ?_, ?_⟩
  · intro ids hp
    simp [handleMessage, h, hp, deleteBookmarksReq]
  · intro e hp
    simp [handleMessage, h, hp, deleteBookmarksReq]
  · cases hp : request.bookmarkIds with
    | list ids => simp [handleMessage, h, hp, deleteBookmarksReq]
    | notIterable e => simp [handleMessage, h, hp, deleteBookmarksReq]

/-- Witness for C3 at explicit inputs: under `failStore`, a well-formed
batch whose only id faults still gets the `success: true` envelope with the
per-item failure inside, and a non-iterable payload gets the
`success: false` envelope. -/
theorem delete_envelope_witness :
    (handleMessage failStore ()
        (Request.mk "deleteBookmarks" (Payload.list [BookmarkId.str "bad"]) (Payload.list []))).2 =
      some (Response.deleteOk
        [DeleteResult.mk "bad" false (some "Cannot find bookmark for id.")]) ∧
    (handleMessage failStore ()
        (Request.mk "deleteBookmarks" (Payload.notIterable "request.bookmarkIds is not iterable")
          (Payload.list []))).2 =
      some (Response.failure "request.bookmarkIds is not iterable") := by
  constructor
  · rw [(delete_envelope failStore ()
        (Request.mk "deleteBookmarks" (Payload.list [BookmarkId.str "bad"]) (Payload.list []))
        rfl).1 [BookmarkId.str "bad"] rfl]
    decide
  · exact (delete_envelope failStore ()
      (Request.mk "deleteBookmarks" (Payload.notIterable "request.bookmarkIds is not iterable")
        (Payload.list []))
      rfl).2.1 "request.bookmarkIds is not iterable" rfl

/-- The claim of C4 is false on the code: a `ping` request answered with
`{success: true, message}` on the one-shot channel gets no response at all
on the persistent channel, whose `port.onMessage` listener only dispatches
`deleteBookmarks`. -/
theorem port_ping_differs :
    (handlePort okStore () (Request.mk "ping" (Payload.list []) (Payload.list []))).2 = none ∧
    (handleMessage okStore () (Request.mk "ping" (Payload.list []) (Payload.list []))).2 =
      some (Response.pingOk "Extension is active") ∧
    (handlePort okStore () (Request.mk "ping" (Payload.list []) (Payload.list []))).2 ≠
      (handleMessage okStore () (Request.mk "ping" (Payload.list []) (Payload.list []))).2 := by
  refine ⟨rfl, rfl, ?_⟩
  decide

/-- C4 (amended): only `deleteBookmarks` exchanges on the persistent
channel are handled exactly like one-shot requests — a `deleteBookmarks`
request delivered on a persistent connection produces the very same
response (and store effect) as on the one-shot channel; a request with any
other action tag, `ping` and `findBookmarksByUrl` included, produces no
response on the persistent channel and leaves the store untouched. -/
theorem port_exchange_behavior (M : StoreModel σ) (s : σ) (request : Request) :
    (request.action = "deleteBookmarks" →
      handlePort M s request = handleMessage M s request) ∧
    (request.action ≠ "deleteBookmarks" →
      handlePort M s request = (s, none)) := by
  constructor
  · intro h
    simp [handlePort, handleMessage, h]
  · intro h
    simp [handlePort, h]

/-- Witness for C4 (amended) at explicit inputs. -/
theorem port_exchange_behavior_witness :
    handlePort okStore ()
        (Request.mk "deleteBookmarks" (Payload.list [BookmarkId.num 7]) (Payload.list [])) =
      handleMessage okStore ()
        (Request.mk "deleteBookmarks" (Payload.list [BookmarkId.num 7]) (Payload.list [])) ∧
    handlePort okStore ()
        (Request.mk "findBookmarksByUrl" (Payload.list []) (Payload.list ["u"])) =
      ((), none) :=
  ⟨(port_exchange_behavior okStore ()
      (Request.mk "deleteBookmarks" (Payload.list [BookmarkId.num 7]) (Payload.list []))).1 rfl,
   (port_exchange_behavior okStore ()
      (Request.mk "findBookmarksByUrl" (Payload.list []) (Payload.list ["u"]))).2 (by decide)⟩

/-- C5: for every inbound request whose action tag is none of `ping`,
`deleteBookmarks`, `findBookmarksByUrl`, no response is ever sent on
either transport — one-shot or persistent — and the store state is
returned unchanged for an arbitrary store model `M`, so no store call is
performed (a silent drop). -/
theorem unrecognized_action_silent_drop (M : StoreModel σ) (s : σ) (request : Request)
    (h1 : request.action ≠ "deleteBookmarks") (h2 : request.action ≠ "ping")
    (h3 : request.action ≠ "findBookmarksByUrl") :
    handleMessage M s request = (s, none) ∧ handlePort M s request = (s, none) := by
  constructor
  · simp [handleMessage, h1, h2, h3]
  · simp [handlePort, h1]

/-- Witness for C5 at an explicit input: the unrecognized tag "navigate"
is dropped on both transports. -/
theorem unrecognized_action_silent_drop_witness :
    handleMessage okStore ()
        (Request.mk "navigate" (Payload.list [BookmarkId.str "1"]) (Payload.list [])) =
      ((), none) ∧
    handlePort okStore ()
        (Request.mk "navigate" (Payload.list [BookmarkId.str "1"]) (Payload.list [])) =
      ((), none) :=
  unrecognized_action_silent_drop okStore ()
    (Request.mk "navigate" (Payload.list [BookmarkId.str "1"]) (Payload.list []))
    (by decide) (by decide) (by decide)

/-- C10 (implicit): a one-shot `deleteBookmarks` request whose
`bookmarkIds` payload is absent or not iterable gets exactly one response,
of the form `{success: false, error}` (the `for...of` throws, the promise
rejects, the `.catch` sends the message), and the store state is returned
unchanged for an arbitrary store model — zero store calls are performed on
a structural fault. -/
theorem structural_fault_unchanged (M : StoreModel σ) (s : σ) (request : Request)
    (e : String) (h1 : request.action = "deleteBookmarks")
    (h2 : request.bookmarkIds = Payload.notIterable e) :
    handleMessage M s request = (s, some (Response.failure e)) := by
  simp [handleMessage, h1, h2, deleteBookmarksReq]

/-- Witness for C10 at an explicit input: a malformed request against
`okStore` — whose calls would all succeed — changes nothing and yields the
single failure envelope. -/
theorem structural_fault_unchanged_witness :
    handleMessage okStore ()
        (Request.mk "deleteBookmarks" (Payload.notIterable "undefined is not iterable")
          (Payload.list [])) =
      ((), some (Response.failure "undefined is not iterable")) :=
  structural_fault_unchanged okStore ()
    (Request.mk "deleteBookmarks" (Payload.notIterable "undefined is not iterable")
      (Payload.list []))
    "undefined is not iterable" rfl rfl

/-! ## Store-call instrumentation

To reason about which store calls a run issues, and in which order, we wrap
an arbitrary store model so that its state also carries the trace of ids
passed to `remove`, appended at the moment the call is issued.  Because
every definition threads the store state sequentially — the state a call
consumes is the one the previous call produced — the trace order is the
issue order, and each call is resolved (ok or error) before the next one
is issued. -/

/-- `M` with its `remove` calls traced: the state grows a `List String`
holding, in order, every id `remove` was invoked with. `search` is traced
through unchanged. -/
def logStore (M : StoreModel σ) : StoreModel (σ × List String) where
  remove := fun p idStr =>
    match M.remove p.1 idStr with
    | (s', r) => ((s', p.2 ++ [idStr]), r)
  search := fun p url =>
    match M.search p.1 url with
    | (s', r) => ((s', p.2), r)

/-! ## The Manual UI Driver (the popup script)

The popup page drives the same per-id delete loop by hand: a text area of
newline-separated ids, load-from-file / paste / clear / delete buttons, a
count display, a progress bar and an append-only result log. -/

/-- The disabled flags of the five interactive controls of the popup:
loadFileBtn, pasteBtn, clearBtn, the bookmarkIds text input, and
deleteBtn.  `true` means the control reports disabled. -/
structure Controls where
  loadDisabled : Bool
  pasteDisabled : Bool
  clearDisabled : Bool
  inputDisabled : Bool
  deleteDisabled : Bool
deriving DecidableEq

/-- The observable state of the popup page: the text area content, the
control flags, the count display text, visibility of the progress and
results panes, the progress bar percentage and label, and the result log
(one `(success, message)` pair per `addResult` call, `success` standing
for the green check versus red cross styling). -/
structure UIState where
  inputValue : String
  controls : Controls
  countText : String
  progressShown : Bool
  resultsShown : Bool
  progressPct : Nat
  progressText : String
  resultsLog : List (Bool × String)
deriving DecidableEq

/-- The character-level rendering of JS `value.split("\n")`: cut the
character list at every newline, keeping empty segments — the empty text
yields one empty line, exactly as in JS. -/
def splitNewlines : List Char → List (List Char)
  | [] => [[]]
  | c :: rest =>
    match splitNewlines rest with
    | [] => [[]]
    | line :: lines =>
        if c == '\n' then [] :: line :: lines else (c :: line) :: lines

/-- JS `line.trim()`: drop whitespace from both ends of the line. -/
def trimLine (l : List Char) : List Char :=
  ((l.dropWhile Char.isWhitespace).reverse.dropWhile Char.isWhitespace).reverse

/-- JS `line.startsWith("#")` on a character list. -/
def startsWithHash : List Char → Bool
  | [] => false
  | c :: _ => c == '#'

/-- `getIds()` from the popup script: split the text area content on
newlines, trim each line, keep the nonempty lines that do not start with
`#` (`line.length > 0 && !line.startsWith("#")`), each line a string
again. -/
def getIds (value : String) : List String :=
  (((splitNewlines value.data).map trimLine).filter
    (fun line => !line.isEmpty && !startsWithHash line)).map
    (fun line => String.mk line)

/-- `updateCount()` from the popup script: refresh the count display and
set `deleteBtn.disabled = ids.length === 0`. -/
def updateCount (st : UIState) : UIState :=
  let ids := getIds st.inputValue
  { st with
    countText := toString ids.length ++ " bookmark ID(s) loaded",
    controls := { st.controls with deleteDisabled := ids.length == 0 } }

/-- `addResult(success, message)` from the popup script: append one line
to the result log. -/
def addResult (st : UIState) (success : Bool) (message : String) : UIState :=
  { st with resultsLog := st.resultsLog ++ [(success, message)] }

/-- The start of a confirmed delete run (popup script lines 84 to 92):
disable all five controls, show the progress and results panes, clear the
result log. -/
def runStart (st : UIState) : UIState :=
  { st with
    controls := Controls.mk true true true true true,
    progressShown := true,
    resultsShown := true,
    resultsLog := [] }

/-- The `for` loop of the deleteBtn click handler: for each id (already a
string, so the `String(id)` coercion is the identity), update the progress
bar — `((i + 1) / total * 100).toFixed(0)` rendered as round-half-up
integer arithmetic — and the progress label, `await
chrome.bookmarks.remove(...)`, then log a success or failure line and bump
the matching counter.  Returns the final store state, page state, and the
success and error counters. -/
def uiLoop (M : StoreModel σ) (total : Nat) :
    List String → σ → UIState → Nat → Nat → Nat → σ × UIState × Nat × Nat
  | [], s, st, _i, successCount, errorCount => (s, st, successCount, errorCount)
  | id :: rest, s, st, i, successCount, errorCount =>
    let st1 := { st with
      progressPct := ((i + 1) * 200 + total) / (2 * total),
      progressText := "Deleting " ++ toString (i + 1) ++ " of " ++ toString total ++ "..." }
    match M.remove s id with
    | (s', Except.ok _) =>
        uiLoop M total rest s' (addResult st1 true ("Deleted bookmark ID: " ++ id))
          (i + 1) (successCount + 1) errorCount
    | (s', Except.error e) =>
        uiLoop M total rest s' (addResult st1 false ("Failed ID " ++ id ++ ": " ++ e))
          (i + 1) successCount (errorCount + 1)

/-- The end of a delete run (popup script lines 114 to 132): set the bar
to 100 percent and the completion label, log the sync summary when
anything succeeded, re-enable all five controls, and — only when every
item succeeded — clear the input field and refresh the count (which in
turn disables deleteBtn again, the field now being empty). -/
def runEnd (st : UIState) (successCount errorCount : Nat) : UIState :=
  let st3 := { st with
    progressPct := 100,
    progressText := "Complete! Deleted: " ++ toString successCount ++ ", Failed: " ++
      toString errorCount }
  let st4 :=
    if 0 < successCount then
      addResult st3 true ("\n--- " ++ toString successCount ++
        " bookmark(s) deleted and will sync to your account ---")
    else st3
  let st5 := { st4 with controls := Controls.mk false false false false false }
  if errorCount == 0 then updateCount { st5 with inputValue := "" } else st5

/-- The deleteBtn click handler: resolve the id list; bail out (alert)
when it is empty; bail out when the operator declines the confirmation
prompt (`confirmed`); otherwise run start, loop, and end. -/
def deleteBtnClick (M : StoreModel σ) (confirmed : Bool) (s : σ) (st : UIState) :
    σ × UIState :=
  let ids := getIds st.inputValue
  if ids.length == 0 then (s, st)
  else if !confirmed then (s, st)
  else
    let out := uiLoop M ids.length ids s (runStart st) 0 0 0
    (out.1, runEnd out.2.1 out.2.2.1 out.2.2.2)

/-- The number of ids in a UI run whose `remove` call faults, threading
the store state exactly as the run does. -/
def failCount (M : StoreModel σ) : List String → σ → Nat
  | [], _ => 0
  | id :: rest, s =>
    match M.remove s id with
    | (s', Except.ok _) => failCount M rest s'
    | (s', Except.error _) => failCount M rest s' + 1

/-- The per-item lines the UI loop appends to the result log, threading
the store state exactly as the run does: one success or failure line per
id, in input order, each carrying the original identifier. -/
def runLogEntries (M : StoreModel σ) : List String → σ → List (Bool × String)
  | [], _ => []
  | id :: rest, s =>
    match M.remove s id with
    | (s', Except.ok _) =>
        (true, "Deleted bookmark ID: " ++ id) :: runLogEntries M rest s'
    | (s', Except.error e) =>
        (false, "Failed ID " ++ id ++ ": " ++ e) :: runLogEntries M rest s'

/-! ## File import (popup script lines 23 to 49) -/

/-- One element of a JSON array loaded from a file: a string scalar, a
numeric scalar, an object (`typeof item === "object"`) whose `id` field
may be missing (`undefined`), or the `null` literal — for which `typeof`
is also the string "object". -/
inductive JsonItem where
  | scalar (s : String)
  | num (n : Int)
  | obj (id : Option String)
  | null
deriving DecidableEq

/-- What `item => typeof item === "object" ? item.id : item` contributes
to the rejoined text for one element: scalars stringify as themselves and
an object contributes its `id` field — a missing field gives `undefined`,
which `Array.prototype.join` renders as the empty string, hence a blank
line.  A `null` element takes the object branch too, and reading `id` from
`null` throws a TypeError (`none`). -/
def jsonItemLine : JsonItem → Option String
  | .scalar s => some s
  | .num n => some (toString n)
  | .obj (some i) => some i
  | .obj none => some ""
  | .null => none

/-- `json.map(...)` with a possibly throwing callback: the mapped lines,
or `none` as soon as any element throws. -/
def mapLines : List JsonItem → Option (List String)
  | [] => some []
  | item :: rest =>
    match jsonItemLine item, mapLines rest with
    | some line, some lines => some (line :: lines)
    | _, _ => none

/-- The outcome of `JSON.parse` on the loaded file text, which is how the
change handler branches: the text parses as a JSON array (the raw text is
kept alongside, since a throw while mapping the elements falls back to
it); it parses as some other JSON value; or parsing throws (not JSON). -/
inductive FileContent where
  | jsonArray (items : List JsonItem) (raw : String)
  | otherJson (raw : String)
  | notJson (raw : String)
deriving DecidableEq

/-- JS `array.join("\n")`: the elements separated by single newlines, the
empty array joining to the empty string. -/
def joinLines : List String → String
  | [] => ""
  | [line] => line
  | line :: rest => line ++ "\n" ++ joinLines rest

/-- The text left in the input field by the file change handler: a parsed
array is mapped element-wise and rejoined with newlines
(`json.map(...).join("\n")`), but the `try` wraps the map as well, so a
throw during it (a `null` element) lands in the same empty `catch` as a
parse failure and leaves the raw text unmodified; non-array JSON fails the
`Array.isArray` guard and keeps the raw text; a parse throw keeps the raw
text. -/
def loadFileContent : FileContent → String
  | .jsonArray items raw =>
    match mapLines items with
    | some lines => joinLines lines
    | none => raw
  | .otherJson raw => raw
  | .notJson raw => raw

/-- The empty input field normalizes to the empty id list. -/
theorem getIds_empty : getIds "" = [] := by decide

/-- The error counter of the UI loop counts exactly the faulting `remove`
calls, threading the store state as the loop does. -/
theorem uiLoop_err (M : StoreModel σ) (total : Nat) :
    ∀ (ids : List String) (s : σ) (st : UIState) (i succ err : Nat),
      (uiLoop M total ids s st i succ err).2.2.2 = err + failCount M ids s := by
  intro ids
  induction ids with
  | nil => intro s st i succ err; simp [uiLoop, failCount]
  | cons id rest ih =>
    intro s st i succ err
    rcases h : M.remove s id with ⟨s', r⟩
    cases r with
    | ok u =>
      simp only [uiLoop, h, failCount, ih]
    | error e =>
      simp only [uiLoop, h, failCount, ih]
      omega

/-- The UI loop never touches the input field. -/
theorem uiLoop_inputValue (M : StoreModel σ) (total : Nat) :
    ∀ (ids : List String) (s : σ) (st : UIState) (i succ err : Nat),
      (uiLoop M total ids s st i succ err).2.1.inputValue = st.inputValue := by
  intro ids
  induction ids with
  | nil => intro s st i succ err; simp [uiLoop]
  | cons id rest ih =>
    intro s st i succ err
    rcases h : M.remove s id with ⟨s', r⟩
    cases r with
    | ok u => simp only [uiLoop, h, addResult, ih]
    | error e => simp only [uiLoop, h, addResult, ih]

/-- The input field after the run-end epilogue: cleared when no item
failed, untouched otherwise. -/
theorem runEnd_inputValue (st : UIState) (succ err : Nat) :
    (runEnd st succ err).inputValue = if err = 0 then "" else st.inputValue := by
  by_cases he : err = 0 <;> by_cases hs : 0 < succ <;>
    simp [runEnd, updateCount, addResult, he, hs]

/-- The control flags after the run-end epilogue: the four non-delete
controls always end enabled; deleteBtn ends enabled after a partial
failure but is disabled again by `updateCount` after a fully successful
run, the input field then being empty. -/
theorem runEnd_controls (st : UIState) (succ err : Nat) :
    (runEnd st succ err).controls =
      Controls.mk false false false false (err == 0) := by
  by_cases he : err = 0 <;> by_cases hs : 0 < succ <;>
    simp [runEnd, updateCount, addResult, he, hs, getIds_empty]

/-- Unfolding of the traced remove primitive. -/
theorem logStore_remove (M : StoreModel σ) (s : σ) (log : List String) (idStr : String) :
    (logStore M).remove (s, log) idStr =
      (((M.remove s idStr).1, log ++ [idStr]), (M.remove s idStr).2) := rfl

/-- The trace of `remove` calls issued by the Batch Mutator is exactly one
call per input item, carrying its stringified id, in input order. -/
theorem deleteBookmarksGo_log (M : StoreModel σ) :
    ∀ (ids : List BookmarkId) (s : σ) (log0 : List String) (acc : List DeleteResult),
      (deleteBookmarksGo (logStore M) ids (s, log0) acc).1.2 =
        log0 ++ ids.map BookmarkId.toStr := by
  intro ids
  induction ids with
  | nil => intro s log0 acc; simp [deleteBookmarksGo]
  | cons bid rest ih =>
    intro s log0 acc
    rcases h : M.remove s bid.toStr with ⟨s', r⟩
    cases r with
    | ok u =>
      simp only [deleteBookmarksGo, logStore_remove, h]
      rw [ih s' (log0 ++ [bid.toStr])]
      simp
    | error e =>
      simp only [deleteBookmarksGo, logStore_remove, h]
      rw [ih s' (log0 ++ [bid.toStr])]
      simp

/-- The trace of `remove` calls issued by the UI loop is exactly one call
per id, in input order. -/
theorem uiLoop_log (M : StoreModel σ) (total : Nat) :
    ∀ (ids : List String) (s : σ) (log0 : List String) (st : UIState) (i succ err : Nat),
      (uiLoop (logStore M) total ids (s, log0) st i succ err).1.2 = log0 ++ ids := by
  intro ids
  induction ids with
  | nil => intro s log0 st i succ err; simp [uiLoop]
  | cons id rest ih =>
    intro s log0 st i succ err
    rcases h : M.remove s id with ⟨s', r⟩
    cases r with
    | ok u =>
      simp only [uiLoop, logStore_remove, h]
      rw [ih s' (log0 ++ [id])]
      simp
    | error e =>
      simp only [uiLoop, logStore_remove, h]
      rw [ih s' (log0 ++ [id])]
      simp

/-- The per-item log has exactly one entry per id. -/
theorem runLogEntries_length (M : StoreModel σ) :
    ∀ (ids : List String) (s : σ), (runLogEntries M ids s).length = ids.length := by
  intro ids
  induction ids with
  | nil => intro s; simp [runLogEntries]
  | cons id rest ih =>
    intro s
    rcases h : M.remove s id with ⟨s', r⟩
    cases r with
    | ok u => simp [runLogEntries, h, ih]
    | error e => simp [runLogEntries, h, ih]

/-- The UI loop appends exactly the per-item lines to the result log. -/
theorem uiLoop_resultsLog (M : StoreModel σ) (total : Nat) :
    ∀ (ids : List String) (s : σ) (st : UIState) (i succ err : Nat),
      (uiLoop M total ids s st i succ err).2.1.resultsLog =
        st.resultsLog ++ runLogEntries M ids s := by
  intro ids
  induction ids with
  | nil => intro s st i succ err; simp [uiLoop, runLogEntries]
  | cons id rest ih =>
    intro s st i succ err
    rcases h : M.remove s id with ⟨s', r⟩
    cases r with
    | ok u =>
      simp only [uiLoop, h, runLogEntries, addResult, ih]
      simp
    | error e =>
      simp only [uiLoop, h, runLogEntries, addResult, ih]
      simp

/-- The run-end epilogue only ever appends to the result log (the sync
summary line, present exactly when something succeeded). -/
theorem runEnd_resultsLog (st : UIState) (succ err : Nat) :
    (runEnd st succ err).resultsLog =
      st.resultsLog ++
        (if 0 < succ then
          [(true, "\n--- " ++ toString succ ++
            " bookmark(s) deleted and will sync to your account ---")]
         else []) := by
  by_cases hs : 0 < succ <;> by_cases he : err = 0 <;>
    simp [runEnd, updateCount, addResult, hs, he]

/-- C6: instrumenting an arbitrary store with a call trace (`logStore`),
every batch — the router path `deleteBookmarks` and the confirmed UI run
alike — issues exactly one remove-by-id store call per input item, in
input order (duplicate ids in the input each receive their own call, the
trace being the input list itself with multiplicities).  The embedding
threads the store state of each call into the next one, so each call is
resolved (ok or error) before the next call is issued; the result list has
one entry per item, pairing each call with its own entry. -/
theorem sequential_store_calls (M : StoreModel σ) (s : σ) (log0 : List String)
    (ids : List BookmarkId) (st : UIState) :
    (deleteBookmarks (logStore M) (s, log0) ids).1.2 = log0 ++ ids.map BookmarkId.toStr ∧
    (deleteBookmarks (logStore M) (s, log0) ids).2.length = ids.length ∧
    (getIds st.inputValue ≠ [] →
      (deleteBtnClick (logStore M) true (s, log0) st).1.2 = log0 ++ getIds st.inputValue ∧
      (deleteBtnClick M true s st).2.resultsLog.take (getIds st.inputValue).length =
        runLogEntries M (getIds st.inputValue) s ∧
      (runLogEntries M (getIds st.inputValue) s).length = (getIds st.inputValue).length) := by
  refine ⟨deleteBookmarksGo_log M ids s log0 [], ?_, ?_⟩
  · have h := congrArg List.length (deleteBookmarks_map_id (logStore M) ids (s, log0))
    simpa using h
  · intro h
    have hc : ¬ (((getIds st.inputValue).length == 0) = true) := by
      simp [List.length_eq_zero]
      exact h
    refine ⟨?_, ?_, runLogEntries_length M (getIds st.inputValue) s⟩
    · simp only [deleteBtnClick, Bool.not_true, hc, if_false, Bool.false_eq_true]
      rw [uiLoop_log]
    · simp only [deleteBtnClick, Bool.not_true, hc, if_false, Bool.false_eq_true]
      rw [runEnd_resultsLog, uiLoop_resultsLog]
      have hrs : (runStart st).resultsLog = [] := rfl
      rw [hrs, List.nil_append,
          ← runLogEntries_length M (getIds st.inputValue) s, List.take_left]

/-- Witness for C6 at explicit inputs: a router batch with the duplicate
id 5 given once as a number and twice as a string traces three calls, and
a confirmed UI run over the duplicate typed lines a, a traces exactly
those two calls in order and logs one result entry for each of the two
duplicates. -/
theorem sequential_store_calls_witness :
    (deleteBookmarks (logStore okStore) ((), [])
        [BookmarkId.str "5", BookmarkId.num 5, BookmarkId.str "5"]).1.2 = ["5", "5", "5"] ∧
    (deleteBtnClick (logStore okStore) true ((), [])
        (UIState.mk "a\na" (Controls.mk false false false false false) "" false false 0 "" [])).1.2 =
      ["a", "a"] ∧
    (deleteBtnClick okStore true ()
        (UIState.mk "a\na" (Controls.mk false false false false false) "" false false 0 "" [])).2.resultsLog.take
        2 =
      [(true, "Deleted bookmark ID: a"), (true, "Deleted bookmark ID: a")] := by
  have hmain := (sequential_store_calls okStore () [] []
    (UIState.mk "a\na" (Controls.mk false false false false false) "" false false 0 "" [])).2.2
    (by decide)
  refine ⟨?_, ?_, ?_⟩
  · exact (sequential_store_calls okStore () []
      [BookmarkId.str "5", BookmarkId.num 5, BookmarkId.str "5"]
      (UIState.mk "" (Controls.mk false false false false false) "" false false 0 "" [])).1
  · rw [hmain.1]
    decide
  · have h2 : (2 : Nat) =
        (getIds (UIState.mk "a\na" (Controls.mk false false false false false)
          "" false false 0 "" []).inputValue).length := by decide
    rw [h2, hmain.2.1]
    decide

/-- The claim of C7 is false on the code: a confirmed one-id run under a
store that succeeds ends with the input cleared, a nonempty result log —
a completed, fully successful run — and the delete button reporting
disabled, because clearing the input triggers `updateCount`, which
disables deleteBtn whenever the resolved id list is empty. -/
theorem run_controls_cex :
    (deleteBtnClick okStore true ()
        (UIState.mk "a" (Controls.mk false false false false false) "" false false 0 "" [])).2.inputValue =
      "" ∧
    (deleteBtnClick okStore true ()
        (UIState.mk "a" (Controls.mk false false false false false) "" false false 0 "" [])).2.resultsLog ≠
      [] ∧
    (deleteBtnClick okStore true ()
        (UIState.mk "a" (Controls.mk false false false false false) "" false false 0 "" [])).2.controls.deleteDisabled =
      true := by
  refine ⟨?_, ?_, ?_⟩ <;> decide

/-- C7 (amended): immediately after a delete run starts (confirmation
accepted, at least one id) all five interactive controls report disabled;
immediately after the run ends, the load, paste, clear and text-input
controls report enabled for every outcome, and the delete button reports
enabled after a partial failure but disabled after a fully successful run
(whose epilogue clears the input and re-runs the count update, which
disables deleteBtn on an empty id list). -/
theorem run_controls (M : StoreModel σ) (s : σ) (st : UIState)
    (h : getIds st.inputValue ≠ []) :
    (runStart st).controls = Controls.mk true true true true true ∧
    (deleteBtnClick M true s st).2.controls =
      Controls.mk false false false false
        (failCount M (getIds st.inputValue) s == 0) := by
  refine ⟨by simp [runStart], ?_⟩
  have hc : ¬ (((getIds st.inputValue).length == 0) = true) := by
    simp [List.length_eq_zero]
    exact h
  simp only [deleteBtnClick, Bool.not_true, hc, if_false, Bool.false_eq_true]
  rw [runEnd_controls, uiLoop_err]
  simp

/-- Witness for C7 (amended) at explicit inputs: under `failStore` a
confirmed run over the single id bad starts with all five controls
disabled and ends with the four non-delete controls enabled and deleteBtn
enabled as well, its one item having failed. -/
theorem run_controls_witness :
    (runStart (UIState.mk "bad" (Controls.mk false false false false false) "" false false 0 "" [])).controls =
      Controls.mk true true true true true ∧
    (deleteBtnClick failStore true ()
        (UIState.mk "bad" (Controls.mk false false false false false) "" false false 0 "" [])).2.controls =
      Controls.mk false false false false
        (failCount failStore
          (getIds (UIState.mk "bad" (Controls.mk false false false false false) "" false false 0 "" []).inputValue)
          () == 0) :=
  run_controls failStore ()
    (UIState.mk "bad" (Controls.mk false false false false false) "" false false 0 "" [])
    (by decide)

/-- C8: after a confirmed Manual UI Driver delete run completes, the input
field is cleared exactly when every item succeeded (zero failing `remove`
calls), and holds exactly its pre-run content when at least one item
failed — the loop itself never touches the field. -/
theorem post_run_input (M : StoreModel σ) (s : σ) (st : UIState)
    (h : getIds st.inputValue ≠ []) :
    (deleteBtnClick M true s st).2.inputValue =
      if failCount M (getIds st.inputValue) s = 0 then "" else st.inputValue := by
  have hc : ¬ (((getIds st.inputValue).length == 0) = true) := by
    simp [List.length_eq_zero]
    exact h
  simp only [deleteBtnClick, Bool.not_true, hc, if_false, Bool.false_eq_true]
  rw [runEnd_inputValue, uiLoop_err, uiLoop_inputValue]
  simp [runStart]

/-- Witness for C8 at explicit inputs: a fully successful run clears the
field; a run whose single item faults leaves the field exactly as typed. -/
theorem post_run_input_witness :
    (deleteBtnClick okStore true ()
        (UIState.mk "a" (Controls.mk false false false false false) "" false false 0 "" [])).2.inputValue =
      "" ∧
    (deleteBtnClick failStore true ()
        (UIState.mk "bad" (Controls.mk false false false false false) "" false false 0 "" [])).2.inputValue =
      "bad" := by
  constructor
  · rw [post_run_input okStore ()
      (UIState.mk "a" (Controls.mk false false false false false) "" false false 0 "" [])
      (by decide)]
    decide
  · rw [post_run_input failStore ()
      (UIState.mk "bad" (Controls.mk false false false false false) "" false false 0 "" [])
      (by decide)]
    decide

/-- C9: UI file import yields, as the identifier list, the parsed array
elements in order — each scalar as-is, each object contributing its id
field — rejoined on newlines when structured (JSON) parsing succeeds and
the element map does not throw, and the raw file text unmodified when
parsing fails (or a null element makes the map throw, falling into the
same catch); in both cases the `getIds` normalization then splits on
newlines, trims each line, and drops blank lines and lines starting with
`#`.  In particular the structured array of a and b yields a, b; the
one-object array with id x yields x; the one-object array with no id
yields a blank line, hence no identifier; and the free text with a comment
and a blank line yields a, b. -/
theorem file_import_ids (items : List JsonItem) (raw : String) (lines : List String) :
    (mapLines items = some lines →
      loadFileContent (FileContent.jsonArray items raw) = joinLines lines) ∧
    (mapLines items = none →
      loadFileContent (FileContent.jsonArray items raw) = raw) ∧
    loadFileContent (FileContent.notJson raw) = raw ∧
    getIds (loadFileContent
      (FileContent.jsonArray [JsonItem.scalar "a", JsonItem.scalar "b"] raw)) = ["a", "b"] ∧
    getIds (loadFileContent (FileContent.jsonArray [JsonItem.obj (some "x")] raw)) = ["x"] ∧
    getIds (loadFileContent (FileContent.jsonArray [JsonItem.obj none] raw)) = [] ∧
    getIds (loadFileContent (FileContent.notJson "a\n#comment\n\nb")) = ["a", "b"] := by
  refine ⟨?_, ?_, rfl, ?_, ?_, ?_, by decide⟩
  · intro h
    simp [loadFileContent, h]
  · intro h
    simp [loadFileContent, h]
  · rw [show loadFileContent
        (FileContent.jsonArray [JsonItem.scalar "a", JsonItem.scalar "b"] raw) = "a\nb" from rfl]
    decide
  · rw [show loadFileContent
        (FileContent.jsonArray [JsonItem.obj (some "x")] raw) = "x" from rfl]
    decide
  · rw [show loadFileContent (FileContent.jsonArray [JsonItem.obj none] raw) = "" from rfl]
    exact getIds_empty

/-- Witness for C9 at explicit inputs: an array of a scalar, an id-less
object and a number joins to the text with a blank middle line, and an
array holding a null element falls back to the raw file text whole. -/
theorem file_import_ids_witness :
    loadFileContent
        (FileContent.jsonArray [JsonItem.scalar "a", JsonItem.obj none, JsonItem.num 3] "RAW") =
      joinLines ["a", "", "3"] ∧
    loadFileContent (FileContent.jsonArray [JsonItem.null] "RAW") = "RAW" := by
  constructor
  · exact (file_import_ids [JsonItem.scalar "a", JsonItem.obj none, JsonItem.num 3] "RAW"
      ["a", "", "3"]).1 (by decide)
  · exact (file_import_ids [JsonItem.null] "RAW" []).2.1 (by decide)

end BookmarkBridge
